import Mathlib

/-
Verification development for the gptease repository (Go).

The file shallowly embeds the two core components of the repository:
  * tools.go  — the schema reflector (readSpec, parseTag) and the tool
    adapter (MakeTool with its Handler closure);
  * chat code — the completion loop (Talk) and the exchange wrapper
    (Exchange), together with the Dialogue data model.

External effects are made explicit: the remote completion API is modelled
as a script of step results (one per remote call, each either an error or
a response), and JSON decode/encode of the tool argument and result types
are passed in as functions, matching the closure view described by the
design notes of the repository.
-/

namespace GPTease

/-! ## Schema reflector (tools.go) -/

/-- Field tags of a Go struct field, as read through reflect.StructTag.
`json` is Tag.Get "json" (empty string when the tag is absent); `descTag`
and `enumTag` are Tag.Lookup "desc" / Tag.Lookup "enum". -/
structure GoTag where
  json : String
  descTag : Option String
  enumTag : Option String
deriving Repr, DecidableEq

mutual
/-- The subset of reflect.Type relevant to readSpec: struct, slice, and
the primitive kinds the source switches on. `tother` stands for any other
reflect.Kind (pointer, map, unsigned ints, interface, ...), identified by
the name of the kind. -/
inductive GoType where
  | tstruct (fields : GoFields)
  | tslice (elem : GoType)
  | tstring
  | tint
  | tint8
  | tint16
  | tint32
  | tint64
  | tfloat32
  | tfloat64
  | tbool
  | tother (kind : String)

/-- The field list of a Go struct type: field name, tags, field type. -/
inductive GoFields where
  | nil
  | cons (fname : String) (tag : GoTag) (ty : GoType) (rest : GoFields)
end

/-- The fieldSpec struct of tools.go: a JSON-Schema-like structural
description. Properties are kept as an association list in map-insertion
order (the JSON serialization itself is not modelled). -/
inductive FieldSpec where
  | mk (ty : String) (properties : List (String × FieldSpec))
       (items : Option FieldSpec) (description : Option String)
       (required : List String) (enumv : Option (List String))

def FieldSpec.ty : FieldSpec → String
  | .mk t _ _ _ _ _ => t

def FieldSpec.properties : FieldSpec → List (String × FieldSpec)
  | .mk _ p _ _ _ _ => p

def FieldSpec.items : FieldSpec → Option FieldSpec
  | .mk _ _ i _ _ _ => i

def FieldSpec.description : FieldSpec → Option String
  | .mk _ _ _ d _ _ => d

def FieldSpec.required : FieldSpec → List String
  | .mk _ _ _ _ r _ => r

def FieldSpec.enumv : FieldSpec → Option (List String)
  | .mk _ _ _ _ _ e => e

/-- Splitting a character list at every occurrence of a separator
character, accumulating the current chunk in reverse. -/
def splitCharAux (sep : Char) : List Char → List Char → List String
  | [], acc => [String.mk acc.reverse]
  | c :: rest, acc =>
    if c = sep then String.mk acc.reverse :: splitCharAux sep rest []
    else splitCharAux sep rest (c :: acc)

/-- Embedding of strings.Split(s, ",") — both call sites of the source
split on a comma. On the empty string it yields [""], as in Go. -/
def splitComma (s : String) : List String :=
  splitCharAux ',' s.data []

/-- Substring test on character lists, used to embed strings.Contains. -/
def charsContain (needle : List Char) : List Char → Bool
  | [] => needle.isEmpty
  | c :: t => needle.isPrefixOf (c :: t) || charsContain needle t

/-- Embedding of strings.Contains(s, sub). -/
def strContains (s sub : String) : Bool :=
  charsContain sub.data s.data

/-- Assignment m[k] = v on a Go map modelled as an association list:
overwrite the binding of k in place if present, else append. -/
def mapInsert (m : List (String × FieldSpec)) (k : String) (v : FieldSpec) :
    List (String × FieldSpec) :=
  match m with
  | [] => [(k, v)]
  | (k2, v2) :: rest => if k2 = k then (k, v) :: rest else (k2, v2) :: mapInsert rest k v

/-- Embedding of fieldSpec.parseTag: copy the desc tag into Description if
present, and split the enum tag on commas into Enum if present. -/
def parseTag (tag : GoTag) : FieldSpec → FieldSpec
  | .mk t p i d r e =>
    let d1 := match tag.descTag with
      | some dd => some dd
      | none => d
    let e1 := match tag.enumTag with
      | some ee => some (splitComma ee)
      | none => e
    .mk t p i d1 r e1

mutual
/-- Embedding of readSpec of tools.go. A panic of the Go code (the
default branch: unsupported type) is modelled as none. Note that the
source switches only on Struct, Slice, String, Int, Float32 and Bool;
every other kind, including the other signed integer widths and Float64,
hits the default branch and panics. -/
def readSpec : GoType → Option FieldSpec
  | GoType.tstruct fields =>
    match readStructFields fields [] [] with
    | none => none
    | some (props, req) => some (FieldSpec.mk "object" props none none req none)
  | GoType.tslice elem =>
    match readSpec elem with
    | none => none
    | some itemSpec => some (FieldSpec.mk "array" [] (some itemSpec) none [] none)
  | GoType.tstring => some (FieldSpec.mk "string" [] none none [] none)
  | GoType.tint => some (FieldSpec.mk "integer" [] none none [] none)
  | GoType.tfloat32 => some (FieldSpec.mk "number" [] none none [] none)
  | GoType.tbool => some (FieldSpec.mk "boolean" [] none none [] none)
  | _ => none
termination_by structural t => t

/-- The field loop of the Struct case of readSpec, with the Properties
map and the Required slice as accumulators. The property name is the
field name, overridden by the first comma-separated component of the
json tag when that tag is nonempty; the name is appended to Required
exactly when the json tag is nonempty and does not contain the substring
"omitempty" (the source checks the whole tag string). -/
def readStructFields : GoFields → List (String × FieldSpec) → List String →
    Option (List (String × FieldSpec) × List String)
  | GoFields.nil, props, req => some (props, req)
  | GoFields.cons fname tag fty rest, props, req =>
    let name := if tag.json = "" then fname else (splitComma tag.json).headD ""
    let req1 := if tag.json = "" then req
      else if strContains tag.json "omitempty" then req
      else req ++ [name]
    match readSpec fty with
    | none => none
    | some fs => readStructFields rest (mapInsert props name (parseTag tag fs)) req1
termination_by structural fs => fs
end

/-! ## Tool adapter (tools.go) -/

/-- Result of running the Handler closure body: either a normal return of
(output, err) — err none meaning a nil Go error — or a Go panic carrying
the panic argument rendered as text. -/
inductive HandlerOutcome where
  | panics (msg : String)
  | ret (output : String) (err : Option String)
deriving Repr, DecidableEq

/-- Embedding of the Handler closure built by MakeTool. The JSON machinery
is passed in explicitly: `decode` stands for json.Unmarshal into a fresh
value of the argument type, `call` for invoking the wrapped function
(second component: its error result), `encode` for json.MarshalIndent of
the value result. `errNamed` tracks the named return value `err` of the
closure, which is still nil when the marshal result is tested — the
source tests `err` (not the marshal error `jerr`) before panicking, so
the panic branch is unreachable and a marshal failure yields the nil
byte slice, i.e. the empty output string, with a nil error. -/
def mkHandler {α β : Type} (decode : String → Except String α)
    (call : α → β × Option String) (encode : β → Except String String)
    (input : String) : HandlerOutcome :=
  match decode input with
  | Except.error e => HandlerOutcome.ret "" (some e)
  | Except.ok v =>
    let results := call v
    match results.2 with
    | some e => HandlerOutcome.ret "" (some e)
    | none =>
      let errNamed : Option String := none
      match encode results.1 with
      | Except.error jerr =>
        if errNamed.isSome then HandlerOutcome.panics jerr
        else HandlerOutcome.ret "" none
      | Except.ok s =>
        if errNamed.isSome then HandlerOutcome.panics ""
        else HandlerOutcome.ret s none

/-- The Handler closure under its Go type string → (string, error). The
panics arm is unreachable (mkHandler_no_panic below). -/
def goHandler {α β : Type} (decode : String → Except String α)
    (call : α → β × Option String) (encode : β → Except String String)
    (input : String) : String × Option String :=
  match mkHandler decode call encode input with
  | HandlerOutcome.ret o e => (o, e)
  | HandlerOutcome.panics m => ("", some m)

/-- The Tool record of tools.go. Parameters is kept as the structural
schema rather than its JSON serialization. -/
structure Tool where
  name : String
  description : String
  parameters : FieldSpec
  handler : String → String × Option String

/-- Embedding of MakeTool. The reflection shape checks of the source (one
argument, two results, second an error) hold by construction here, since
the wrapped function is given as decode/call/encode components already of
that shape. A panic of readSpec (unsupported argument type) propagates:
MakeTool panics at registration time and no Tool is produced (none). -/
def MakeTool {α β : Type} (argType : GoType)
    (decode : String → Except String α) (call : α → β × Option String)
    (encode : β → Except String String) (name desc : String) : Option Tool :=
  match readSpec argType with
  | none => none
  | some params =>
    some { name := name, description := desc, parameters := params,
           handler := goHandler decode call encode }

/-! ## Completion loop and dialogue (chat code) -/

/-- One requested tool call of a response message (openai.ToolCall):
id, declared call type, function name and JSON argument payload. -/
structure ToolCall where
  id : String
  type : String
  fname : String
  args : String
deriving Repr, DecidableEq

/-- A chat message (openai.ChatCompletionMessage restricted to the fields
the source reads or writes). -/
structure ChatMessage where
  role : String := ""
  content : String := ""
  toolCalls : List ToolCall := []
  toolCallID : String := ""
deriving Repr, DecidableEq

/-- Dialogue: the ordered message log. -/
abbrev Dialogue := List ChatMessage

/-- One choice of a completion response: finish reason (a string in the
wire protocol: "stop", "length", "tool_calls", "function_call",
"content_filter", "null") and the message. -/
structure Choice where
  finishReason : String
  message : ChatMessage
deriving Repr, DecidableEq

/-- A completion response: the list of choices. -/
structure Response where
  choices : List Choice
deriving Repr, DecidableEq

/-- Errors surfaced by the chat code: the sentinel errors of the source,
with unexpectedResponse carrying the wrapped detail text, plus remote for
client construction / CreateChatCompletion errors and emptyContent for
the Exchange precondition failure. -/
inductive ChatError where
  | contentFilter
  | notFinished
  | unexpectedResponse (detail : String)
  | remote (msg : String)
  | emptyContent
deriving Repr, DecidableEq

/-- Content of the tool reply for one requested call, mirroring the
dispatch block of Talk: a non-function call type yields an unknown-type
error text; otherwise the first registered tool with the called name is
run on the JSON arguments, and a missing tool yields a not-found error
text. The reply content is the error text when the error is non-nil,
else the tool output. -/
def toolContent (tools : List Tool) (call : ToolCall) : String :=
  let r : String × Option String :=
    if call.type ≠ "function" then
      ("", some ("error: unknown tool call type " ++ call.type))
    else
      match List.find? (fun t => t.name == call.fname) tools with
      | some t => t.handler call.args
      | none => ("", some ("error: no tool found with name " ++ call.fname))
  match r.2 with
  | some e => e
  | none => r.1

/-- The tool-role message appended for one requested call, tagged with
the call id. -/
def toolMessage (tools : List Tool) (call : ToolCall) : ChatMessage :=
  { role := "tool", content := toolContent tools call, toolCallID := call.id }

/-- What one iteration of the Talk loop does with the outcome of one
remote call (client construction plus CreateChatCompletion, merged into
one Except: error aborts the iteration before the dialogue is touched). -/
inductive StepOut where
  | terminalErr (e : ChatError)
  | terminalOk (msg : ChatMessage)
  | continueWith (msgs : List ChatMessage)
deriving Repr, DecidableEq

/-- Interpretation of one remote call outcome, following the switch on
the finish reason of the first choice in Talk: zero choices and the
deprecated function-call form are unexpected-response errors; tool_calls
with an empty call list is an unexpected-response error, otherwise the
assistant message and one tool reply per call are appended and the loop
continues; content_filter and null are terminal errors; every other
finish reason (including "stop" and "length") returns the message. -/
def interpretStep (tools : List Tool) (step : Except String Response) : StepOut :=
  match step with
  | Except.error e => StepOut.terminalErr (ChatError.remote e)
  | Except.ok resp =>
    match resp.choices with
    | [] => StepOut.terminalErr (ChatError.unexpectedResponse "OpenAI API returned no choices")
    | choice :: _ =>
      if choice.finishReason = "function_call" then
        StepOut.terminalErr (ChatError.unexpectedResponse "deprecated function call returned by API")
      else if choice.finishReason = "tool_calls" then
        match choice.message.toolCalls with
        | [] => StepOut.terminalErr (ChatError.unexpectedResponse "no calls provided")
        | calls => StepOut.continueWith (choice.message :: calls.map (toolMessage tools))
      else if choice.finishReason = "content_filter" then
        StepOut.terminalErr ChatError.contentFilter
      else if choice.finishReason = "null" then
        StepOut.terminalErr ChatError.notFinished
      else
        StepOut.terminalOk choice.message

/-- Outcome of the Talk loop: a response string, an error, or exhaustion
of the remote-call script while the loop would issue another call (the
source loop is unbounded; a finite script acts as fuel). -/
inductive Outcome where
  | ok (response : String)
  | fail (e : ChatError)
  | noMoreSteps
deriving Repr, DecidableEq

/-- Result of the Talk loop: final dialogue, outcome, and the unconsumed
remainder of the remote-call script. -/
structure TalkResult where
  dialogue : List ChatMessage
  outcome : Outcome
  remaining : List (Except String Response)

/-- Embedding of the Talk loop: one script entry is consumed per
iteration; a terminal error leaves the dialogue as it stood at the start
of that iteration, a terminal success appends the assistant message and
returns its content, and a tool-calls iteration appends the assistant
message plus the tool replies and loops. -/
def TalkLoop (tools : List Tool) : List (Except String Response) →
    List ChatMessage → TalkResult
  | [], dlg => TalkResult.mk dlg Outcome.noMoreSteps []
  | step :: rest, dlg =>
    match interpretStep tools step with
    | StepOut.terminalErr e => TalkResult.mk dlg (Outcome.fail e) rest
    | StepOut.terminalOk msg =>
      TalkResult.mk (dlg ++ [msg]) (Outcome.ok msg.content) rest
    | StepOut.continueWith msgs => TalkLoop tools rest (dlg ++ msgs)

/-- The Chat state the claims are about: the dialogue and the registered
tools. Model and tweak parameters of the source are pass-through request
payload and are not modelled. -/
structure Chat where
  dialogue : List ChatMessage := []
  tools : List Tool := []

/-- The user message value appended by UserSaid. -/
def userMessage (msg : String) : ChatMessage :=
  { role := "user", content := msg }

/-- Embedding of Chat.UserSaid. -/
def UserSaid (c : Chat) (msg : String) : Chat :=
  { c with dialogue := c.dialogue ++ [userMessage msg] }

/-- Embedding of Chat.AssistantSaid. -/
def AssistantSaid (c : Chat) (msg : String) : Chat :=
  { c with dialogue := c.dialogue ++ [{ role := "assistant", content := msg }] }

/-- Embedding of Chat.Instruction. -/
def Instruction (c : Chat) (txt : String) : Chat :=
  { c with dialogue := c.dialogue ++ [{ role := "system", content := txt }] }

/-- Result of Exchange: the final chat state, the outcome, and the
unconsumed remainder of the remote-call script. -/
structure ExchangeResult where
  chat : Chat
  outcome : Outcome
  remaining : List (Except String Response)

/-- Embedding of Chat.Exchange: empty content is rejected before any
message is appended or any remote call is made; otherwise the user
message is appended, the Talk loop runs, and on failure the dialogue is
truncated back to its pre-exchange length. The noMoreSteps outcome
(exhausted script) corresponds to no Go return at all — the loop would
still be running — and is passed through unchanged. -/
def Exchange (c : Chat) (script : List (Except String Response))
    (content : String) : ExchangeResult :=
  if content = "" then ExchangeResult.mk c (Outcome.fail ChatError.emptyContent) script
  else
    let dlen := c.dialogue.length
    let c1 := UserSaid c content
    let r := TalkLoop c1.tools script c1.dialogue
    match r.outcome with
    | Outcome.ok resp =>
      ExchangeResult.mk { c1 with dialogue := r.dialogue } (Outcome.ok resp) r.remaining
    | Outcome.fail e =>
      ExchangeResult.mk { c1 with dialogue := r.dialogue.take dlen } (Outcome.fail e) r.remaining
    | Outcome.noMoreSteps =>
      ExchangeResult.mk { c1 with dialogue := r.dialogue } Outcome.noMoreSteps r.remaining

/-! ## Properties of the completion loop -/

/-- The Talk loop only appends: the dialogue it returns extends the
dialogue it was started on. -/
theorem TalkLoop_dialogue_extends (tools : List Tool)
    (script : List (Except String Response)) :
    ∀ dlg : List ChatMessage, ∃ ext, (TalkLoop tools script dlg).dialogue = dlg ++ ext := by
  induction script with
  | nil => exact fun dlg => ⟨[], by simp [TalkLoop]⟩
  | cons step rest ih =>
    intro dlg
    rcases h : interpretStep tools step with e | msg | msgs
    · exact ⟨[], by simp [TalkLoop, h]⟩
    · exact ⟨[msg], by simp [TalkLoop, h]⟩
    · obtain ⟨ext, hext⟩ := ih (dlg ++ msgs)
      refine ⟨msgs ++ ext, ?_⟩
      simp only [TalkLoop, h]
      rw [hext, List.append_assoc]

/-- List fact used for the rollback: taking back the length of the left
part of an appended list recovers the left part exactly. -/
theorem take_length_append {α : Type} (l1 l2 : List α) :
    (l1 ++ l2).take l1.length = l1 :=
  List.take_left l1 l2

/-- C1: Exchange atomicity. Whenever Exchange ends in an error — the
empty-content check, a client construction or remote-call failure, or any
terminal failure of the completion loop, after arbitrarily many
intermediate assistant/tool messages — the dialogue after the call equals
the dialogue before it; when Exchange succeeds, the pre-existing dialogue
is an unchanged prefix and all new messages sit after it. -/
theorem exchange_atomicity (c : Chat) (script : List (Except String Response))
    (content : String) :
    (∀ e, (Exchange c script content).outcome = Outcome.fail e →
      (Exchange c script content).chat.dialogue = c.dialogue)
    ∧ (∀ r, (Exchange c script content).outcome = Outcome.ok r →
      ∃ ext, (Exchange c script content).chat.dialogue = c.dialogue ++ ext) := by
  by_cases hc : content = ""
  · subst hc
    refine ⟨fun e _ => by simp [Exchange], fun r hr => ?_⟩
    simp [Exchange] at hr
  · obtain ⟨ext, hext⟩ :=
      TalkLoop_dialogue_extends (UserSaid c content).tools script (UserSaid c content).dialogue
    have hdlg : (UserSaid c content).dialogue = c.dialogue ++ [userMessage content] := rfl
    constructor
    · intro e he
      simp only [Exchange, if_neg hc] at he ⊢
      rcases hO : (TalkLoop (UserSaid c content).tools script (UserSaid c content).dialogue).outcome
        with r | e2
      · rw [hO] at he; exact Outcome.noConfusion he
      · change List.take c.dialogue.length
          (TalkLoop (UserSaid c content).tools script (UserSaid c content).dialogue).dialogue
          = c.dialogue
        rw [hext, hdlg, List.append_assoc]
        exact take_length_append c.dialogue ([userMessage content] ++ ext)
      · rw [hO] at he; exact Outcome.noConfusion he
    · intro r hr
      simp only [Exchange, if_neg hc] at hr ⊢
      rcases hO : (TalkLoop (UserSaid c content).tools script (UserSaid c content).dialogue).outcome
        with r2 | e2
      · refine ⟨[userMessage content] ++ ext, ?_⟩
        change (TalkLoop (UserSaid c content).tools script (UserSaid c content).dialogue).dialogue
          = c.dialogue ++ ([userMessage content] ++ ext)
        rw [hext, hdlg, List.append_assoc]
      · rw [hO] at hr; exact Outcome.noConfusion hr
      · rw [hO] at hr; exact Outcome.noConfusion hr

/-- C1 witness: a concrete failing exchange (remote error on the first
call) leaves the concrete dialogue exactly as it was. -/
def chatW : Chat := { dialogue := [userMessage "hello"], tools := [] }

theorem exchange_atomicity_witness :
    (Exchange chatW [Except.error "network down"] "hi").chat.dialogue = chatW.dialogue :=
  (exchange_atomicity chatW [Except.error "network down"] "hi").1
    (ChatError.remote "network down") rfl

/-- C7: a response whose first choice finishes with "stop" or "length"
makes Talk append the assistant message to the dialogue and return its
content with a nil error. -/
theorem talk_stop_or_length_returns (tools : List Tool) (dlg : List ChatMessage)
    (rest : List (Except String Response)) (resp : Response) (choice : Choice)
    (tl : List Choice) (h1 : resp.choices = choice :: tl)
    (h2 : choice.finishReason = "stop" ∨ choice.finishReason = "length") :
    TalkLoop tools (Except.ok resp :: rest) dlg =
      TalkResult.mk (dlg ++ [choice.message]) (Outcome.ok choice.message.content) rest := by
  have hstep : interpretStep tools (Except.ok resp) = StepOut.terminalOk choice.message := by
    rcases h2 with h | h <;> simp [interpretStep, h1, h]
  simp [TalkLoop, hstep]

def msgStopW : ChatMessage := { role := "assistant", content := "hi there" }

def respStopW : Response := { choices := [{ finishReason := "stop", message := msgStopW }] }

/-- C7 witness: concrete stop response. -/
theorem talk_stop_or_length_returns_witness :
    TalkLoop [] [Except.ok respStopW] [] =
      TalkResult.mk ([] ++ [msgStopW]) (Outcome.ok msgStopW.content) [] :=
  talk_stop_or_length_returns [] [] [] respStopW ⟨"stop", msgStopW⟩ [] rfl (Or.inl rfl)

/-- C8: a function-typed tool call whose name is not registered makes
Talk append a tool-role message whose content names the missing tool,
tagged with that call id, and continue the loop on the remaining script
instead of returning an error. -/
theorem talk_unregistered_tool_continues (tools : List Tool) (dlg : List ChatMessage)
    (rest : List (Except String Response)) (resp : Response) (choice : Choice)
    (tl : List Choice) (call : ToolCall) (calls : List ToolCall)
    (h1 : resp.choices = choice :: tl)
    (h2 : choice.finishReason = "tool_calls")
    (h3 : choice.message.toolCalls = calls)
    (hne : calls ≠ [])
    (_hmem : call ∈ calls)
    (htype : call.type = "function")
    (hmiss : ∀ t ∈ tools, t.name ≠ call.fname) :
    toolMessage tools call =
      { role := "tool",
        content := "error: no tool found with name " ++ call.fname,
        toolCallID := call.id }
    ∧ TalkLoop tools (Except.ok resp :: rest) dlg =
        TalkLoop tools rest (dlg ++ choice.message :: calls.map (toolMessage tools)) := by
  constructor
  · have hfind : List.find? (fun t => t.name == call.fname) tools = none := by
      apply List.find?_eq_none.mpr
      intro t ht
      simpa using hmiss t ht
    simp [toolMessage, toolContent, htype, hfind]
  · have hstep : interpretStep tools (Except.ok resp)
        = StepOut.continueWith (choice.message :: calls.map (toolMessage tools)) := by
      rcases hcs : calls with _ | ⟨c0, cs⟩
      · exact absurd hcs hne
      · rw [hcs] at h3
        simp [interpretStep, h1, h2, h3]
    simp [TalkLoop, hstep]

def callW : ToolCall := { id := "call_7", type := "function", fname := "rollDie", args := "1" }

def msgTCW : ChatMessage := { role := "assistant", toolCalls := [callW] }

def respTCW : Response := { choices := [{ finishReason := "tool_calls", message := msgTCW }] }

/-- C8 witness: concrete tool-calls response naming an unregistered tool
in an empty registry. -/
theorem talk_unregistered_tool_continues_witness :
    toolMessage [] callW =
      { role := "tool",
        content := "error: no tool found with name " ++ callW.fname,
        toolCallID := callW.id }
    ∧ TalkLoop [] [Except.ok respTCW] [] =
        TalkLoop [] [] ([] ++ msgTCW :: [callW].map (toolMessage [])) :=
  talk_unregistered_tool_continues [] [] [] respTCW ⟨"tool_calls", msgTCW⟩ [] callW [callW]
    rfl rfl rfl (by simp) (by simp) rfl (fun t ht => absurd ht (List.not_mem_nil t))

/-- C9: a tool-calls response carrying an empty call list makes Talk
return the unexpected-response error with detail "no calls provided" and
append nothing to the dialogue. -/
theorem talk_empty_toolcalls_error (tools : List Tool) (dlg : List ChatMessage)
    (rest : List (Except String Response)) (resp : Response) (choice : Choice)
    (tl : List Choice)
    (h1 : resp.choices = choice :: tl)
    (h2 : choice.finishReason = "tool_calls")
    (h3 : choice.message.toolCalls = []) :
    TalkLoop tools (Except.ok resp :: rest) dlg =
      TalkResult.mk dlg (Outcome.fail (ChatError.unexpectedResponse "no calls provided")) rest := by
  have hstep : interpretStep tools (Except.ok resp)
      = StepOut.terminalErr (ChatError.unexpectedResponse "no calls provided") := by
    simp [interpretStep, h1, h2, h3]
  simp [TalkLoop, hstep]

def msgNoCallsW : ChatMessage := { role := "assistant", content := "" }

def respNoCallsW : Response := { choices := [{ finishReason := "tool_calls", message := msgNoCallsW }] }

/-- C9 witness: concrete tool-calls response with an empty call list. -/
theorem talk_empty_toolcalls_error_witness :
    TalkLoop [] [Except.ok respNoCallsW] [userMessage "hi"] =
      TalkResult.mk [userMessage "hi"]
        (Outcome.fail (ChatError.unexpectedResponse "no calls provided")) [] :=
  talk_empty_toolcalls_error [] [userMessage "hi"] [] respNoCallsW
    ⟨"tool_calls", msgNoCallsW⟩ [] rfl rfl rfl

/-- C10: Exchange on the empty string fails with the empty-content error
immediately: the chat (hence the dialogue) is unchanged and the script is
untouched — no remote completion call is issued. -/
theorem exchange_empty_content (c : Chat) (script : List (Except String Response)) :
    Exchange c script "" =
      ExchangeResult.mk c (Outcome.fail ChatError.emptyContent) script := rfl

/-! ## Properties of the schema reflector and the tool adapter -/

/-- The serialized names of the fields that contribute to the required
list: those with a nonempty json tag that does not contain the substring
"omitempty", in field order, each under the first comma-separated
component of its json tag. -/
def requiredNamesSpec : GoFields → List String
  | GoFields.nil => []
  | GoFields.cons _ tag _ rest =>
    if tag.json ≠ "" ∧ strContains tag.json "omitempty" = false then
      (splitComma tag.json).headD "" :: requiredNamesSpec rest
    else requiredNamesSpec rest

/-- The required accumulator of the struct field loop grows by exactly
the contributions described by requiredNamesSpec. -/
theorem readStructFields_req : ∀ (fields : GoFields)
    (props : List (String × FieldSpec)) (req : List String)
    (res : List (String × FieldSpec) × List String),
    readStructFields fields props req = some res →
    res.2 = req ++ requiredNamesSpec fields
  | GoFields.nil, props, req, res => by
    intro h
    simp only [readStructFields, Option.some.injEq] at h
    rw [← h]
    simp [requiredNamesSpec]
  | GoFields.cons fname tag fty rest, props, req, res => by
    intro h
    simp only [readStructFields] at h
    rcases hf : readSpec fty with _ | fs
    · rw [hf] at h; exact absurd h (by simp)
    · rw [hf] at h
      have h2 := readStructFields_req rest _ _ _ h
      rw [h2]
      by_cases hj : tag.json = ""
      · simp [requiredNamesSpec, hj]
      · by_cases ho : strContains tag.json "omitempty" = true
        · simp [requiredNamesSpec, hj, ho]
        · simp [requiredNamesSpec, hj, ho, List.append_assoc]
termination_by structural fields => fields

/-- C2 counterexample: a struct with the single field Foo carrying no
json tag. The field lacks an omitempty annotation, its serialization
name is Foo and it appears among the properties, yet the required list
of the derived schema is empty — the source appends to Required only
inside the nonempty-json-tag branch. -/
theorem required_untagged_field_cex :
    (readSpec (GoType.tstruct (GoFields.cons "Foo"
        { json := "", descTag := none, enumTag := none } GoType.tstring GoFields.nil))).map
      (fun fs => (fs.required, fs.properties.map Prod.fst)) = some ([], ["Foo"])
    ∧ strContains "" "omitempty" = false :=
  ⟨rfl, rfl⟩

/-- C2 amended: for every struct argument type, the derived required
list consists exactly of the serialized names (first comma-separated
component of the json tag) of the fields whose json tag is nonempty and
does not contain the substring "omitempty", in field order; fields with
an omitempty annotation, and fields without any json tag, contribute
nothing to the required list. -/
theorem required_exactly_tagged_fields (fields : GoFields) (fs : FieldSpec)
    (h : readSpec (GoType.tstruct fields) = some fs) :
    fs.required = requiredNamesSpec fields := by
  simp only [readSpec] at h
  rcases hsf : readStructFields fields [] [] with _ | ⟨props, req⟩
  · rw [hsf] at h; exact absurd h (by simp)
  · rw [hsf] at h
    have h2 := readStructFields_req fields [] [] (props, req) hsf
    simp only [List.nil_append] at h2
    have hfs : fs = FieldSpec.mk "object" props none none req none := by
      injection h with h3
      exact h3.symm
    rw [hfs]
    exact h2

def fieldsW : GoFields :=
  GoFields.cons "Foo" { json := "foo", descTag := none, enumTag := none } GoType.tstring
    (GoFields.cons "Bar" { json := "bar,omitempty", descTag := none, enumTag := none }
      GoType.tint GoFields.nil)

/-- C2 witness: on the two-field struct of the test suite (foo required,
bar marked omitempty) the derived required list is exactly the spec
contribution, namely ["foo"]. -/
theorem required_exactly_tagged_fields_witness :
    (FieldSpec.mk "object"
      [("foo", FieldSpec.mk "string" [] none none [] none),
       ("bar", FieldSpec.mk "integer" [] none none [] none)] none none ["foo"] none).required
      = requiredNamesSpec fieldsW :=
  required_exactly_tagged_fields fieldsW _ rfl

/-- The Handler closure never reaches its panic branch: the guard tests
the named return err, which is nil on every path that reaches the
marshal step. -/
theorem mkHandler_no_panic {α β : Type} (decode : String → Except String α)
    (call : α → β × Option String) (encode : β → Except String String)
    (input : String) :
    ∃ o e2, mkHandler decode call encode input = HandlerOutcome.ret o e2 := by
  simp only [mkHandler]
  rcases decode input with e | v
  · exact ⟨"", some e, rfl⟩
  · rcases hc : call v with ⟨b, err⟩
    rcases err with _ | e
    · rcases he : encode b with jerr | s
      · exact ⟨"", none, by simp [hc, he]⟩
      · exact ⟨s, none, by simp [hc, he]⟩
    · exact ⟨"", some e, by simp [hc]⟩

/-- C3: the Handler closure returns the empty output together with the
decode error when the input fails to decode, and the empty output
together with the function error when the wrapped function returns a
non-nil error (its value result discarded); in both situations the
outcome is a normal return, not a panic. -/
theorem handler_propagates_errors {α β : Type} (decode : String → Except String α)
    (call : α → β × Option String) (encode : β → Except String String)
    (input : String) :
    (∀ e, decode input = Except.error e →
      mkHandler decode call encode input = HandlerOutcome.ret "" (some e))
    ∧ (∀ a v e, decode input = Except.ok a → call a = (v, some e) →
      mkHandler decode call encode input = HandlerOutcome.ret "" (some e)) := by
  constructor
  · intro e h
    simp [mkHandler, h]
  · intro a v e h1 h2
    simp [mkHandler, h1, h2]

/-- Concrete decode function for witnesses: "bad" fails to decode, "err"
decodes to 1, everything else to 0. -/
def decodeW : String → Except String Nat := fun s =>
  if s = "bad" then Except.error "invalid character"
  else if s = "err" then Except.ok 1 else Except.ok 0

/-- Concrete wrapped function for witnesses: fails on 1, else succeeds. -/
def fnW : Nat → Nat × Option String := fun n =>
  if n = 1 then (0, some "tool broke") else (n + 1, none)

def encodeOkW : Nat → Except String String := fun n => Except.ok (toString n)

def encodeFailW : Nat → Except String String := fun _ =>
  Except.error "json: unsupported value: NaN"

/-- C3 witness: concrete decode failure and concrete function error. -/
theorem handler_propagates_errors_witness :
    mkHandler decodeW fnW encodeOkW "bad" = HandlerOutcome.ret "" (some "invalid character")
    ∧ mkHandler decodeW fnW encodeOkW "err" = HandlerOutcome.ret "" (some "tool broke") :=
  ⟨(handler_propagates_errors decodeW fnW encodeOkW "bad").1 "invalid character" rfl,
   (handler_propagates_errors decodeW fnW encodeOkW "err").2 1 0 "tool broke" rfl rfl⟩

def nanTool : Tool :=
  { name := "nanTool", description := "tool with unserializable result",
    parameters := FieldSpec.mk "object" [] none none [] none,
    handler := goHandler decodeW fnW encodeFailW }

def nanCall : ToolCall := { id := "call_9", type := "function", fname := "nanTool", args := "ok" }

/-- C4 counterexample: when the wrapped function succeeds but encoding
its result fails, the Handler returns the empty string with a NIL error
(the panic guard tests the named return err instead of the marshal error
jerr, and err is nil there), so the tool-role content reported to the
model is the empty string — not the error text, contrary to the claim. -/
theorem encode_failure_not_reported_cex :
    mkHandler decodeW fnW encodeFailW "ok" = HandlerOutcome.ret "" none
    ∧ toolContent [nanTool] nanCall = ""
    ∧ ¬ toolContent [nanTool] nanCall = "json: unsupported value: NaN" :=
  ⟨rfl, rfl, by decide⟩

/-- C4 amended: when the wrapped function succeeds and JSON-encoding of
its value result fails, the Handler neither panics nor aborts the
exchange, but the marshal error is silently swallowed: the handler
returns the empty output with a nil error, so the tool-role message
content is the empty string rather than the error text. -/
theorem encode_failure_silent_empty {α β : Type} (decode : String → Except String α)
    (call : α → β × Option String) (encode : β → Except String String)
    (input : String) (a : α) (b : β) (jerr : String)
    (h1 : decode input = Except.ok a) (h2 : call a = (b, none))
    (h3 : encode b = Except.error jerr) :
    mkHandler decode call encode input = HandlerOutcome.ret "" none
    ∧ goHandler decode call encode input = ("", none) := by
  have hm : mkHandler decode call encode input = HandlerOutcome.ret "" none := by
    simp [mkHandler, h1, h2, h3]
  exact ⟨hm, by simp [goHandler, hm]⟩

/-- C4 witness: the concrete failing encoder. -/
theorem encode_failure_silent_empty_witness :
    mkHandler decodeW fnW encodeFailW "ok" = HandlerOutcome.ret "" none
    ∧ goHandler decodeW fnW encodeFailW "ok" = ("", none) :=
  encode_failure_silent_empty decodeW fnW encodeFailW "ok" 0 1
    "json: unsupported value: NaN" rfl rfl rfl

/-- C5 counterexample: int64 is a fixed-width signed integer kind and
float64 is a floating-point kind, yet schema derivation rejects both
(the source switch handles only reflect.Int and reflect.Float32). -/
theorem primitive_widths_cex :
    readSpec GoType.tint64 = none ∧ readSpec GoType.tfloat64 = none :=
  ⟨rfl, rfl⟩

/-- C5 amended: schema derivation maps the string kind to "string", the
platform-sized signed integer kind (reflect.Int) to "integer", the
32-bit floating-point kind to "number" and the boolean kind to
"boolean"; the fixed-width signed integer kinds int8, int16, int32 and
int64 and the 64-bit floating-point kind are rejected (they panic). -/
theorem readSpec_primitive_mapping :
    readSpec GoType.tstring = some (FieldSpec.mk "string" [] none none [] none)
    ∧ readSpec GoType.tint = some (FieldSpec.mk "integer" [] none none [] none)
    ∧ readSpec GoType.tfloat32 = some (FieldSpec.mk "number" [] none none [] none)
    ∧ readSpec GoType.tbool = some (FieldSpec.mk "boolean" [] none none [] none)
    ∧ readSpec GoType.tint8 = none ∧ readSpec GoType.tint16 = none
    ∧ readSpec GoType.tint32 = none ∧ readSpec GoType.tint64 = none
    ∧ readSpec GoType.tfloat64 = none :=
  ⟨rfl, rfl, rfl, rfl, rfl, rfl, rfl, rfl, rfl⟩

/-- C6: for an argument type of a kind outside the subset the reflector
supports (here: any kind other than struct, slice, string and the
handled primitives), MakeTool fails at registration time and returns no
Tool value at all, so the failure cannot be deferred to
handler-invocation time. -/
theorem maketool_unsupported_kind_fails {α β : Type} (decode : String → Except String α)
    (call : α → β × Option String) (encode : β → Except String String)
    (name desc kind : String) :
    MakeTool (GoType.tother kind) decode call encode name desc = none := rfl

end GPTease
